import Mathlib

/-!
# ESP32 MQTT patient monitor: scheduler, session and frame encoding

A shallow embedding of `scripts/esp32-sensor.cpp`.

* The module-level variables of the sketch are the fields of `World`.
* Every call into a collaborator (WiFi, PubSubClient, `delay`, `random`) is
  recorded as an `Event` at the end of `World.trace`; what a collaborator
  returns is an explicit argument of the function that makes the call.
* `unsigned long` is 32 bits wide on the ESP32: such values are naturals
  reduced modulo `2 ^ 32`.
* A finite `float`/`double` value is the rational it denotes; the rounding
  steps, the textual rendering of such values and the JSON writer belong to
  libraries outside the sketch and are the fields of `Platform`.
* Diagnostic output on `Serial` is not part of the model.
-/

namespace Blocate

/-! ## Configuration constants -/

/-- WiFi network name (`ssid`). -/
def ssid : String := "Mesh18"

/-- WiFi passphrase (`password`). -/
def password : String := "18181818"

/-- Broker address (`mqtt_server`). -/
def mqtt_server : String := "10.160.83.208"

/-- Broker port (`mqtt_port`). -/
def mqtt_port : Int := 1883

/-- Device identity (`device_id`). -/
def device_id : String := "patient-002"

/-- Telemetry period in milliseconds (`const long publishInterval`). -/
def publishInterval : Int := 5000

/-! ## 32-bit unsigned arithmetic -/

/-- Number of values of an `unsigned long` on the target. -/
def wordModulus : Nat := 2 ^ 32

/-- Conversion of a `long` to `unsigned long` (usual arithmetic conversions). -/
def toU32 (i : Int) : Nat := (i % (wordModulus : Int)).toNat

/-- Subtraction of two `unsigned long` values: the result wraps modulo `2 ^ 32`. -/
def subU32 (a b : Nat) : Nat := (a % wordModulus + (wordModulus - b % wordModulus)) % wordModulus

/-- The test `currentMillis - lastPublish >= publishInterval` of `loop()`. -/
def telemetryDue (currentMillis lastPublish : Nat) : Bool :=
  decide (toU32 publishInterval ≤ subU32 currentMillis lastPublish)

/-! ## JSON documents -/

/-- A value stored in a JSON document by the sketch. -/
inductive JsonValue where
  | str (s : String)
  | int (i : Int)
  | uint (n : Nat)
  | float (q : ℚ)
  deriving DecidableEq

/-- A JSON object as ArduinoJson holds it: its members in insertion order. The
capacity of the `StaticJsonDocument<256>` pool is not modelled: every member the
sketch assigns is stored. -/
abbrev JsonDocument := List (String × JsonValue)

/-- The assignment `doc[key] = value`: replaces the member when the key is present,
appends a new member otherwise. -/
def JsonDocument.set : JsonDocument → String → JsonValue → JsonDocument
  | [], k, v => [(k, v)]
  | (k', v') :: rest, k, v =>
    if k' = k then (k, v) :: rest else (k', v') :: JsonDocument.set rest k v

/-- The member stored under a key, if any. -/
def JsonDocument.get : JsonDocument → String → Option JsonValue
  | [], _ => none
  | (k', v') :: rest, k => if k' = k then some v' else JsonDocument.get rest k

/-- The keys of a document, in order. -/
def JsonDocument.keys (doc : JsonDocument) : List String := doc.map Prod.fst

/-- The members of a document whose key is in the given list. -/
def JsonDocument.restrict (doc : JsonDocument) (ks : List String) : JsonDocument :=
  doc.filter (fun kv => decide (kv.1 ∈ ks))

/-! ## Tool-chain collaborators -/

/-- The library functions that the sketch relies on and does not define: rounding
to `double` and to `float`, Arduino's `String(float, decimals)`, and ArduinoJson's
writer, which maps a document and the size of the destination `char` array to
the text left in that array. -/
structure Platform where
  f64 : ℚ → ℚ
  f32 : ℚ → ℚ
  strFloat : ℚ → Nat → String
  jsonWriter : JsonDocument → Nat → String

/-- A platform used to evaluate the model on concrete inputs. Its functions are
placeholders: rounding is exact, floating-point text is fixed and the writer
lists the keys of the document. -/
def refPlatform : Platform where
  f64 := id
  f32 := id
  strFloat := fun _ _ => "0.000000"
  jsonWriter := fun doc _ => String.intercalate "," doc.keys

/-- The conversion `(int)x` of a floating-point value: the fractional part is
discarded. The quotient of numerator by denominator rounds toward zero. -/
def castInt (x : ℚ) : Int := Int.tdiv x.num (x.den : Int)

/-- The values for which C++ defines `(int)x`: the truncated value fits a 32-bit `int`. -/
def castDefined (x : ℚ) : Prop := -(2 : ℚ) ^ 31 - 1 < x ∧ x < (2 : ℚ) ^ 31

/-- The call `serializeJson(doc, buffer)` on a `char` array of the given size: the
text that ArduinoJson leaves in the buffer. The sketch ignores the value the call
returns. -/
def serializeJson (P : Platform) (doc : JsonDocument) (size : Nat) : String :=
  P.jsonWriter doc size

/-! ## Program state and observable events -/

/-- A call made by the sketch into one of its collaborators. -/
inductive Event where
  | delay (ms : Nat)
  | wifiBegin (ssid password : String)
  | setServer (host : String) (port : Int)
  | setCallback
  | connect (clientId : String) (ok : Bool)
  | poll
  | random (lo hi result : Int)
  | publish (topic payload : String) (ok : Bool)
  deriving DecidableEq

/-- The module-level variables of the sketch, the session state of the MQTT client
(`connected` is what `client.connected()` answers) and the calls made so far. -/
structure World where
  telemetry_topic : String
  alert_topic : String
  currentBPM : ℚ
  currentTemp : ℚ
  currentGPS : String
  lastPublish : Nat
  connected : Bool
  trace : List Event

/-- The state at power-on: the initialisers of the module-level variables. -/
def boot : World where
  telemetry_topic := ""
  alert_topic := ""
  currentBPM := 75
  currentTemp := 73 / 2
  currentGPS := "14.5995,120.9842"
  lastPublish := 0
  connected := false
  trace := []

/-- Appends one collaborator call to the trace. -/
def World.emit (w : World) (e : Event) : World := { w with trace := w.trace ++ [e] }

/-- Is the event a `client.publish` call? -/
def Event.isPublish : Event → Bool
  | .publish _ _ _ => true
  | _ => false

/-- Is the event a `client.publish` call on the given topic? -/
def Event.isPublishTo (topic : String) : Event → Bool
  | .publish t _ _ => decide (t = topic)
  | _ => false

/-- Is the event a `client.connect` call? -/
def Event.isConnect : Event → Bool
  | .connect _ _ => true
  | _ => false

/-- Is the event a `random` call, the reading source of the sketch? -/
def Event.isRandom : Event → Bool
  | .random _ _ _ => true
  | _ => false

/-- Is the event a `delay` call? -/
def Event.isDelay : Event → Bool
  | .delay _ => true
  | _ => false

/-! ## Inputs from the collaborators -/

/-- The results of the four `random` calls of one `readSensors` run, in call order. -/
structure SensorDraws where
  bpm : Int
  temp : Int
  lat : Int
  lng : Int

/-- What the collaborators return during one run of `loop()`: the outcomes of the
successive `client.connect` calls, whether the session survives `client.loop()`,
the `millis()` value read by `loop()`, the sensor draws, the `millis()` value read
by `publishTelemetry()` and whether the transport accepts the message. -/
structure TickInput where
  connects : List Bool
  linkUp : Bool
  now : Nat
  draws : SensorDraws
  stamp : Nat
  sendOk : Bool

/-- What the collaborators return while one alert is handled: the `millis()` value
read by `publishAlert()` and whether the transport accepts the message. -/
structure AlertInput where
  stamp : Nat
  sendOk : Bool

/-! ## MQTT client -/

/-- Modelled from the spec: PubSubClient's `connect`, which is not part of the
sketch. A successful attempt puts the session in the connected state, a failed
one leaves it disconnected (section 4.1 of the specification). -/
def clientConnect (clientId : String) (ok : Bool) (w : World) : World :=
  { w with connected := ok, trace := w.trace ++ [Event.connect clientId ok] }

/-- Modelled from the spec: PubSubClient's `loop`, which is not part of the
sketch. Polling may detect a transport failure, which ends the session. -/
def clientLoop (linkUp : Bool) (w : World) : World :=
  { w with connected := w.connected && linkUp, trace := w.trace ++ [Event.poll] }

/-- Modelled from the spec: the result of PubSubClient's `publish`, which is not
part of the sketch. It fails when the session is not connected or when the
transport refuses the message. -/
def clientPublishResult (sendOk : Bool) (w : World) : Bool := w.connected && sendOk

/-! ## The sketch -/

/-- The result of `sprintf(buffer, "patient/%s/<kind>", device_id)`. -/
def topicFor (kind : String) : String := "patient/" ++ device_id ++ "/" ++ kind

/-- The loop of `setupWiFi()`: waits in steps of 500 ms until the station is
associated. The list holds the successive answers to
`WiFi.status() == WL_CONNECTED`; `none` means the loop is still waiting when the
answers run out. -/
def awaitWiFi : List Bool → World → Option World
  | [], _ => none
  | true :: _, w => some w
  | false :: rest, w => awaitWiFi rest (w.emit (Event.delay 500))

/-- The function `setupWiFi()`. -/
def setupWiFi (statuses : List Bool) (w : World) : Option World :=
  awaitWiFi statuses (w.emit (Event.wifiBegin ssid password))

/-- The function `setup()`. -/
def setup (statuses : List Bool) (w : World) : Option World :=
  let w1 := w.emit (Event.delay 1000)
  let w2 := { w1 with telemetry_topic := topicFor "telemetry", alert_topic := topicFor "alert" }
  (setupWiFi statuses w2).map fun w3 =>
    (w3.emit (Event.setServer mqtt_server mqtt_port)).emit Event.setCallback

/-- The function `reconnectMQTT()`. The list holds the outcomes of the successive
`client.connect` calls; `none` means the loop is still running when the outcomes
run out. -/
def reconnectMQTT : List Bool → World → Option World
  | [], w => if w.connected then some w else none
  | ok :: rest, w =>
    if w.connected then some w
    else
      let w1 := clientConnect device_id ok w
      if ok then reconnectMQTT rest w1
      else reconnectMQTT rest (w1.emit (Event.delay 5000))

/-- The function `readSensors()`. -/
def readSensors (P : Platform) (d : SensorDraws) (w : World) : World :=
  let bpm : ℚ := P.f32 (P.f64 (70 + (d.bpm : ℚ)))
  let temp : ℚ := P.f32 (P.f64 (73 / 2 + P.f64 ((d.temp : ℚ) / 10)))
  let lat : ℚ := P.f32 (P.f64 (P.f64 (145995 / 10000) + P.f64 ((d.lat : ℚ) / 10000)))
  let lng : ℚ := P.f32 (P.f64 (P.f64 (1209842 / 10000) + P.f64 ((d.lng : ℚ) / 10000)))
  { w with
    currentBPM := bpm
    currentTemp := temp
    currentGPS := P.strFloat lat 6 ++ "," ++ P.strFloat lng 6
    trace := w.trace ++ [Event.random (-10) 10 d.bpm, Event.random (-5) 5 d.temp,
      Event.random (-50) 50 d.lat, Event.random (-50) 50 d.lng] }

/-- The document built by `publishTelemetry()`; `stamp` is the result of its
`millis()` call. -/
def telemetryDoc (w : World) (stamp : Nat) : JsonDocument :=
  let doc : JsonDocument := []
  let doc := doc.set "deviceId" (.str device_id)
  let doc := doc.set "bpm" (.int (castInt w.currentBPM))
  let doc := doc.set "temp" (.float w.currentTemp)
  let doc := doc.set "gps" (.str w.currentGPS)
  doc.set "timestamp" (.uint (stamp % wordModulus))

/-- The function `publishTelemetry()`. -/
def publishTelemetry (P : Platform) (stamp : Nat) (sendOk : Bool) (w : World) : World :=
  let jsonBuffer := serializeJson P (telemetryDoc w stamp) 256
  w.emit (Event.publish w.telemetry_topic jsonBuffer (clientPublishResult sendOk w))

/-- The document built by `publishAlert()`; `stamp` is the result of its `millis()`
call. -/
def alertDoc (w : World) (stamp : Nat) : JsonDocument :=
  let doc : JsonDocument := []
  let doc := doc.set "deviceId" (.str device_id)
  let doc := doc.set "type" (.str "manual")
  let doc := doc.set "message" (.str "Emergency button pressed!")
  let doc := doc.set "bpm" (.int (castInt w.currentBPM))
  let doc := doc.set "temp" (.float w.currentTemp)
  let doc := doc.set "gps" (.str w.currentGPS)
  doc.set "timestamp" (.uint (stamp % wordModulus))

/-- The function `publishAlert()`. -/
def publishAlert (P : Platform) (a : AlertInput) (w : World) : World :=
  let jsonBuffer := serializeJson P (alertDoc w a.stamp) 256
  w.emit (Event.publish w.alert_topic jsonBuffer (clientPublishResult a.sendOk w))

/-- The function `onEmergencyButton()`. -/
def onEmergencyButton (P : Platform) (a : AlertInput) (w : World) : World :=
  publishAlert P a w

/-- Successive invocations of `onEmergencyButton()`, one per input. -/
def alertTriggers (P : Platform) : List AlertInput → World → World
  | [], w => w
  | a :: rest, w => alertTriggers P rest (onEmergencyButton P a w)

/-- The function `loop()`: one scheduler tick. -/
def loop (P : Platform) (inp : TickInput) (w : World) : Option World :=
  (if w.connected then some w else reconnectMQTT inp.connects w).map fun w1 =>
    let w2 := clientLoop inp.linkUp w1
    let currentMillis := inp.now % wordModulus
    if telemetryDue currentMillis w2.lastPublish then
      let w3 := { w2 with lastPublish := currentMillis }
      let w4 := readSensors P inp.draws w3
      publishTelemetry P inp.stamp inp.sendOk w4
    else w2

/-! ## Vocabulary of the statements

Call sequences, projections and sample states that the theorems below refer to. -/

/-- The state a tick starts from in the examples: topics as `setup()` leaves them,
session connected, power-on readings. -/
def readyWorld : World :=
  { boot with
    telemetry_topic := topicFor "telemetry"
    alert_topic := topicFor "alert"
    connected := true }

/-- A tick input with the given `millis()` reading and no reconnect outcomes. -/
def tickAt (now : Nat) : TickInput where
  connects := []
  linkUp := true
  now := now
  draws := { bpm := 3, temp := -2, lat := 10, lng := -7 }
  stamp := now + 1
  sendOk := true

/-- The calls of one failed connection attempt: the attempt and the wait after it. -/
def failedAttempt : List Event := [Event.connect device_id false, Event.delay 5000]

/-- The calls of `k` failed attempts followed by a successful one. -/
def attemptsUntilSuccess (k : Nat) : List Event :=
  (List.replicate k failedAttempt).flatten ++ [Event.connect device_id true]

/-- The part of `loop()` that follows the session check. -/
def afterSession (P : Platform) (inp : TickInput) (w1 : World) : World :=
  let w2 := clientLoop inp.linkUp w1
  let currentMillis := inp.now % wordModulus
  if telemetryDue currentMillis w2.lastPublish then
    let w3 := { w2 with lastPublish := currentMillis }
    let w4 := readSensors P inp.draws w3
    publishTelemetry P inp.stamp inp.sendOk w4
  else w2

/-- The `random` calls of one `readSensors()` run. -/
def sensorCalls (d : SensorDraws) : List Event :=
  [Event.random (-10) 10 d.bpm, Event.random (-5) 5 d.temp,
    Event.random (-50) 50 d.lat, Event.random (-50) 50 d.lng]

/-- The calls of a tick in which telemetry is due, after the session check. -/
def dueCalls (d : SensorDraws) (topic payload : String) (ok : Bool) : List Event :=
  Event.poll :: (sensorCalls d ++ [Event.publish topic payload ok])

/-- The payload of the telemetry message of a tick started in state `w1`. -/
def tickPayload (P : Platform) (inp : TickInput) (w1 : World) : String :=
  serializeJson P (telemetryDoc
    (readSensors P inp.draws
      { clientLoop inp.linkUp w1 with lastPublish := inp.now % wordModulus }) inp.stamp) 256

/-- The same tick input with another transport answer to the publish call. -/
def TickInput.withSendOk (inp : TickInput) (ok : Bool) : TickInput := { inp with sendOk := ok }

/-- The state of the sketch without the record of calls. -/
def World.forgetTrace (w : World) : World := { w with trace := [] }

/-- The number of `client.publish` calls made by three consecutive ticks. -/
def publishesOfThreeTicks (P : Platform) (i1 i2 i3 : TickInput) (w : World) : Option Nat :=
  (((loop P i1 w).bind (loop P i2)).bind (loop P i3)).map fun w3 =>
    (w3.trace.drop w.trace.length).countP Event.isPublish

/-- Truncation toward zero, in the words of the interface table: a non-negative
value is rounded down, a negative one is rounded up. -/
def truncTowardZero (x : ℚ) : Int := if 0 ≤ x then ⌊x⌋ else ⌈x⌉

/-- The five keys of a telemetry document. -/
def telemetryKeys : List String := ["deviceId", "bpm", "temp", "gps", "timestamp"]

/-- The `client.publish` call of an alert handled in state `w`. -/
def alertCall (P : Platform) (w : World) (a : AlertInput) : Event :=
  Event.publish w.alert_topic (serializeJson P (alertDoc w a.stamp) 256)
    (clientPublishResult a.sendOk w)

theorem toU32_publishInterval : toU32 publishInterval = 5000 := by
  decide

theorem subU32_lt (a b : Nat) : subU32 a b < 2 ^ 32 := by
  unfold subU32 wordModulus
  exact Nat.mod_lt _ (by norm_num)

theorem telemetryDue_iff (now last : Nat) :
    telemetryDue now last = true ↔ 5000 ≤ subU32 now last := by
  simp [telemetryDue, toU32_publishInterval]

theorem subU32_wrapped (lastPublish d : Nat) (hd : d < 2 ^ 32) :
    subU32 ((lastPublish + d) % 2 ^ 32) lastPublish = d := by
  unfold subU32 wordModulus
  omega

/-! ## The reconnect loop -/

theorem reconnectMQTT_connected (outcomes : List Bool) (w : World)
    (h : w.connected = true) : reconnectMQTT outcomes w = some w := by
  cases outcomes <;> simp [reconnectMQTT, h]

theorem reconnectMQTT_failures (k : Nat) (rest : List Bool) (w : World)
    (h : w.connected = false) :
    reconnectMQTT (List.replicate k false ++ true :: rest) w =
      some { w with connected := true, trace := w.trace ++ attemptsUntilSuccess k } := by
  induction k generalizing w with
  | zero =>
    simp [reconnectMQTT, h, clientConnect, attemptsUntilSuccess]
    exact reconnectMQTT_connected _ _ rfl
  | succ n ih =>
    have step : reconnectMQTT (List.replicate (n + 1) false ++ true :: rest) w =
        reconnectMQTT (List.replicate n false ++ true :: rest)
          ((clientConnect device_id false w).emit (Event.delay 5000)) := by
      simp [List.replicate_succ, reconnectMQTT, h]
    rw [step, ih _ (by simp [clientConnect, World.emit])]
    simp [clientConnect, World.emit, attemptsUntilSuccess, List.replicate_succ, failedAttempt]

theorem reconnectMQTT_returns_connected (outcomes : List Bool) (w w' : World)
    (h : reconnectMQTT outcomes w = some w') : w'.connected = true := by
  induction outcomes generalizing w with
  | nil =>
    by_cases hc : w.connected = true
    · simp [reconnectMQTT, hc] at h
      rw [← h]; exact hc
    · simp [reconnectMQTT, hc] at h
  | cons ok rest ih =>
    by_cases hc : w.connected = true
    · simp [reconnectMQTT, hc] at h
      rw [← h]; exact hc
    · cases ok
      · simp [reconnectMQTT, hc] at h
        exact ih _ h
      · simp [reconnectMQTT, hc] at h
        exact ih _ h

theorem count_attemptsUntilSuccess (k : Nat) :
    (attemptsUntilSuccess k).countP Event.isConnect = k + 1 ∧
    (attemptsUntilSuccess k).countP Event.isDelay = k ∧
    (attemptsUntilSuccess k).getLast? = some (Event.connect device_id true) := by
  induction k with
  | zero => simp [attemptsUntilSuccess, Event.isConnect, Event.isDelay]
  | succ n ih =>
    obtain ⟨h1, h2, h3⟩ := ih
    simp only [attemptsUntilSuccess, List.replicate_succ, List.flatten_cons,
      List.append_assoc, List.countP_append] at *
    refine ⟨?_, ?_, by simp⟩
    · simp [failedAttempt, Event.isConnect] at *
      omega
    · simp [failedAttempt, Event.isDelay] at *
      omega

/-- C6: started disconnected, on k failed connect outcomes followed by a success,
reconnectMQTT returns with the client connected, having made exactly k+1 connect
calls with client id device_id, a 5000 ms delay right after each failed attempt
and none after the successful one; whenever it returns the client is connected;
started connected it returns at once with no call at all. -/
theorem reconnectMQTT_retries (k : Nat) (rest : List Bool) (w : World) :
    (w.connected = false →
      ∃ w', reconnectMQTT (List.replicate k false ++ true :: rest) w = some w' ∧
        w'.connected = true ∧
        w'.trace = w.trace ++ attemptsUntilSuccess k ∧
        (attemptsUntilSuccess k).countP Event.isConnect = k + 1 ∧
        (attemptsUntilSuccess k).countP Event.isDelay = k ∧
        (attemptsUntilSuccess k).getLast? = some (Event.connect device_id true)) ∧
    (∀ outcomes w', reconnectMQTT outcomes w = some w' → w'.connected = true) ∧
    (w.connected = true → ∀ outcomes, reconnectMQTT outcomes w = some w) := by
  refine ⟨fun h => ⟨_, reconnectMQTT_failures k rest w h, rfl, rfl, ?_⟩, ?_, ?_⟩
  · exact count_attemptsUntilSuccess k
  · exact fun outcomes w' h => reconnectMQTT_returns_connected outcomes w w' h
  · exact fun h outcomes => reconnectMQTT_connected outcomes w h

theorem reconnectMQTT_retries_witness :
    boot.connected = false ∧
    ∃ w', reconnectMQTT (List.replicate 2 false ++ true :: [false]) boot = some w' ∧
      w'.connected = true ∧
      w'.trace = boot.trace ++ attemptsUntilSuccess 2 ∧
      (attemptsUntilSuccess 2).countP Event.isConnect = 2 + 1 ∧
      (attemptsUntilSuccess 2).countP Event.isDelay = 2 ∧
      (attemptsUntilSuccess 2).getLast? = some (Event.connect device_id true) :=
  ⟨rfl, (reconnectMQTT_retries 2 [false] boot).1 rfl⟩

/-! ## One scheduler tick -/

theorem loop_eq (P : Platform) (inp : TickInput) (w : World) :
    loop P inp w =
      (if w.connected then some w else reconnectMQTT inp.connects w).map (afterSession P inp) :=
  rfl

theorem afterSession_due (P : Platform) (inp : TickInput) (w1 : World)
    (hd : 5000 ≤ subU32 (inp.now % wordModulus) w1.lastPublish) :
    afterSession P inp w1 =
      { readSensors P inp.draws w1 with
        lastPublish := inp.now % wordModulus
        connected := w1.connected && inp.linkUp
        trace := w1.trace ++ dueCalls inp.draws w1.telemetry_topic (tickPayload P inp w1)
          (w1.connected && inp.linkUp && inp.sendOk) } := by
  have h : telemetryDue (inp.now % wordModulus) w1.lastPublish = true :=
    (telemetryDue_iff _ _).2 hd
  simp [afterSession, clientLoop, h, publishTelemetry, readSensors, World.emit,
    dueCalls, sensorCalls, tickPayload, clientPublishResult]

theorem afterSession_not_due (P : Platform) (inp : TickInput) (w1 : World)
    (hd : ¬ 5000 ≤ subU32 (inp.now % wordModulus) w1.lastPublish) :
    afterSession P inp w1 = clientLoop inp.linkUp w1 := by
  have h : telemetryDue (inp.now % wordModulus) w1.lastPublish = false := by
    rw [← Bool.not_eq_true, telemetryDue_iff]; exact hd
  simp [afterSession, clientLoop, h]

theorem count_dueCalls (d : SensorDraws) (topic payload : String) (ok : Bool) :
    (dueCalls d topic payload ok).countP Event.isPublish = 1 ∧
    (dueCalls d topic payload ok).countP (Event.isPublishTo topic) = 1 := by
  simp [dueCalls, sensorCalls, Event.isPublish, Event.isPublishTo]

theorem topicFor_telemetry : topicFor "telemetry" = "patient/" ++ device_id ++ "/telemetry" := by
  decide

theorem topicFor_alert : topicFor "alert" = "patient/" ++ device_id ++ "/alert" := by
  decide

theorem loop_connected (P : Platform) (inp : TickInput) (w : World)
    (hc : w.connected = true) : loop P inp w = some (afterSession P inp w) := by
  simp [loop_eq, hc]

/-- C1: in a tick that starts with the client connected and the telemetry topic as
setup() leaves it, loop() returns, and it makes exactly one client.publish call,
on "patient/" ++ device_id ++ "/telemetry", when now - lastPublish (unsigned,
32 bits) is at least 5000; otherwise it makes no publish call and leaves
lastPublish unchanged. -/
theorem loop_publishes_iff_due (P : Platform) (inp : TickInput) (w : World)
    (hc : w.connected = true)
    (ht : w.telemetry_topic = "patient/" ++ device_id ++ "/telemetry") :
    ∃ w' evs, loop P inp w = some w' ∧ w'.trace = w.trace ++ evs ∧
      (evs.countP (Event.isPublishTo ("patient/" ++ device_id ++ "/telemetry")) = 1 ↔
        5000 ≤ subU32 (inp.now % 2 ^ 32) w.lastPublish) ∧
      (5000 ≤ subU32 (inp.now % 2 ^ 32) w.lastPublish →
        evs.countP Event.isPublish = 1 ∧ w'.lastPublish = inp.now % 2 ^ 32) ∧
      (¬ 5000 ≤ subU32 (inp.now % 2 ^ 32) w.lastPublish →
        evs.countP Event.isPublish = 0 ∧ w'.lastPublish = w.lastPublish) := by
  by_cases hd : 5000 ≤ subU32 (inp.now % wordModulus) w.lastPublish
  · have hw := afterSession_due P inp w hd
    refine ⟨_, dueCalls inp.draws w.telemetry_topic (tickPayload P inp w)
      (w.connected && inp.linkUp && inp.sendOk), loop_connected P inp w hc, ?_, ?_, ?_, ?_⟩
    · rw [hw]
    · rw [← ht]
      exact ⟨fun _ => hd, fun _ => (count_dueCalls _ _ _ _).2⟩
    · intro _
      exact ⟨(count_dueCalls _ _ _ _).1, by rw [hw]; rfl⟩
    · intro h
      exact absurd hd h
  · have hw := afterSession_not_due P inp w hd
    refine ⟨_, [Event.poll], loop_connected P inp w hc, ?_, ?_, ?_, ?_⟩
    · rw [hw]
      rfl
    · constructor
      · intro h
        simp [Event.isPublishTo] at h
      · intro h
        exact absurd h hd
    · intro h
      exact absurd h hd
    · intro _
      refine ⟨by simp [Event.isPublish], ?_⟩
      rw [hw]
      rfl

theorem loop_publishes_iff_due_witness :
    ∃ w' evs, loop refPlatform (tickAt 6000) readyWorld = some w' ∧
      w'.trace = readyWorld.trace ++ evs ∧
      (evs.countP (Event.isPublishTo ("patient/" ++ device_id ++ "/telemetry")) = 1 ↔
        5000 ≤ subU32 ((tickAt 6000).now % 2 ^ 32) readyWorld.lastPublish) ∧
      (5000 ≤ subU32 ((tickAt 6000).now % 2 ^ 32) readyWorld.lastPublish →
        evs.countP Event.isPublish = 1 ∧ w'.lastPublish = (tickAt 6000).now % 2 ^ 32) ∧
      (¬ 5000 ≤ subU32 ((tickAt 6000).now % 2 ^ 32) readyWorld.lastPublish →
        evs.countP Event.isPublish = 0 ∧ w'.lastPublish = readyWorld.lastPublish) :=
  loop_publishes_iff_due refPlatform (tickAt 6000) readyWorld rfl (by decide)

/-! ## Wrap-around of the millisecond counter -/

/-- C10: for every value of lastPublish and every true elapsed time d below 2^32,
the unsigned difference between the wrapped reading (lastPublish + d) mod 2^32
and lastPublish is d, so the test of loop() succeeds exactly when d is at least
5000, whether or not the counter wrapped; a connected tick with that reading
records it as the new lastPublish in that case and keeps the old one otherwise. -/
theorem telemetryDue_wraparound (lastPublish d : Nat) (hd : d < 2 ^ 32) :
    subU32 ((lastPublish + d) % 2 ^ 32) lastPublish = d ∧
    (telemetryDue ((lastPublish + d) % 2 ^ 32) lastPublish = true ↔ 5000 ≤ d) ∧
    ∀ (P : Platform) (inp : TickInput) (w : World), w.connected = true →
      w.lastPublish = lastPublish → inp.now = (lastPublish + d) % 2 ^ 32 →
      (loop P inp w).map World.lastPublish =
        some (if 5000 ≤ d then (lastPublish + d) % 2 ^ 32 else lastPublish) := by
  have h := subU32_wrapped lastPublish d hd
  refine ⟨h, by rw [telemetryDue_iff, h], ?_⟩
  intro P inp w hc hl hn
  have hm : inp.now % wordModulus = (lastPublish + d) % 2 ^ 32 := by
    rw [hn]; exact Nat.mod_mod _ _
  rw [loop_connected P inp w hc]
  by_cases h5 : 5000 ≤ d
  · have hd' : 5000 ≤ subU32 (inp.now % wordModulus) w.lastPublish := by
      rw [hm, hl, h]; exact h5
    rw [afterSession_due P inp w hd', if_pos h5, ← hm]
    rfl
  · have hd' : ¬ 5000 ≤ subU32 (inp.now % wordModulus) w.lastPublish := by
      rw [hm, hl, h]; exact h5
    rw [afterSession_not_due P inp w hd', if_neg h5, ← hl]
    rfl

theorem telemetryDue_wraparound_witness :
    subU32 ((4294967000 + 5200) % 2 ^ 32) 4294967000 = 5200 ∧
    (telemetryDue ((4294967000 + 5200) % 2 ^ 32) 4294967000 = true ↔ 5000 ≤ 5200) ∧
    ∀ (P : Platform) (inp : TickInput) (w : World), w.connected = true →
      w.lastPublish = 4294967000 → inp.now = (4294967000 + 5200) % 2 ^ 32 →
      (loop P inp w).map World.lastPublish =
        some (if 5000 ≤ 5200 then (4294967000 + 5200) % 2 ^ 32 else 4294967000) :=
  telemetryDue_wraparound 4294967000 5200 (by norm_num)

/-! ## Ticks that start disconnected -/

theorem exists_first_success (outcomes : List Bool) (h : true ∈ outcomes) :
    ∃ k rest, outcomes = List.replicate k false ++ true :: rest := by
  induction outcomes with
  | nil => simp at h
  | cons ok tl ih =>
    cases ok
    · obtain ⟨k, rest, hk⟩ := ih (by simpa using h)
      exact ⟨k + 1, rest, by simp [hk, List.replicate_succ]⟩
    · exact ⟨0, tl, by simp⟩

theorem isPublish_attemptsUntilSuccess (k : Nat) :
    (attemptsUntilSuccess k).countP Event.isPublish = 0 := by
  induction k with
  | zero => simp [attemptsUntilSuccess, Event.isPublish]
  | succ n ih =>
    simp only [attemptsUntilSuccess, List.replicate_succ, List.flatten_cons,
      List.append_assoc, List.countP_append] at *
    simp [failedAttempt, Event.isPublish] at *

/-- The session check of `loop()` returns whenever the client is connected or some
connect attempt succeeds; it only changes the session state and adds connect and
delay calls. -/
theorem session_ready (inp : TickInput) (w : World)
    (h : w.connected = true ∨ true ∈ inp.connects) :
    ∃ cs, cs.countP Event.isPublish = 0 ∧
      (if w.connected then some w else reconnectMQTT inp.connects w) =
        some { w with connected := true, trace := w.trace ++ cs } := by
  by_cases hc : w.connected = true
  · refine ⟨[], by simp, ?_⟩
    simp only [hc, if_true, List.append_nil]
    cases w
    simp_all
  · have ht : true ∈ inp.connects := h.resolve_left hc
    obtain ⟨k, rest, hk⟩ := exists_first_success _ ht
    have hf : w.connected = false := by simpa using hc
    refine ⟨attemptsUntilSuccess k, isPublish_attemptsUntilSuccess k, ?_⟩
    simp only [hf, hk]
    exact reconnectMQTT_failures k rest w hf

/-- A tick whose session check returns: the calls it makes and the state it leaves. -/
theorem loop_returns (P : Platform) (inp : TickInput) (w : World)
    (h : w.connected = true ∨ true ∈ inp.connects) :
    ∃ cs, cs.countP Event.isPublish = 0 ∧
      loop P inp w =
        some (afterSession P inp { w with connected := true, trace := w.trace ++ cs }) := by
  obtain ⟨cs, h0, hs⟩ := session_ready inp w h
  exact ⟨cs, h0, by rw [loop_eq, hs]; rfl⟩

/-- A tick in which telemetry is due, for either answer of the transport. -/
theorem loop_due_outcome (P : Platform) (inp : TickInput) (w : World)
    (hs : w.connected = true ∨ true ∈ inp.connects)
    (hd : 5000 ≤ subU32 (inp.now % wordModulus) w.lastPublish) :
    ∃ cs, cs.countP Event.isPublish = 0 ∧ ∀ ok,
      loop P (inp.withSendOk ok) w =
        some { readSensors P inp.draws w with
          lastPublish := inp.now % wordModulus
          connected := inp.linkUp
          trace := w.trace ++ (cs ++ dueCalls inp.draws w.telemetry_topic
            (tickPayload P inp { w with connected := true, trace := w.trace ++ cs })
            (inp.linkUp && ok)) } := by
  obtain ⟨cs, h0, hr⟩ := session_ready inp w hs
  refine ⟨cs, h0, fun ok => ?_⟩
  have hl : loop P (inp.withSendOk ok) w = some (afterSession P (inp.withSendOk ok)
      { w with connected := true, trace := w.trace ++ cs }) := by
    rw [loop_eq]
    exact congrArg (Option.map _) hr
  rw [hl, afterSession_due P (inp.withSendOk ok)
    { w with connected := true, trace := w.trace ++ cs } hd]
  simp [TickInput.withSendOk, readSensors, tickPayload, clientLoop]

/-- A tick whose session check returns makes one publish call when telemetry is due
and none otherwise. -/
theorem loop_attempts (P : Platform) (inp : TickInput) (w : World)
    (hs : w.connected = true ∨ true ∈ inp.connects) :
    ∃ w' evs, loop P inp w = some w' ∧ w'.trace = w.trace ++ evs ∧
      (evs.countP Event.isPublish = 1 ↔ 5000 ≤ subU32 (inp.now % wordModulus) w.lastPublish) ∧
      (evs.countP Event.isPublish = 0 ↔
        ¬ 5000 ≤ subU32 (inp.now % wordModulus) w.lastPublish) := by
  obtain ⟨cs, h0, hl⟩ := loop_returns P inp w hs
  by_cases hd : 5000 ≤ subU32 (inp.now % wordModulus) w.lastPublish
  · have hw := afterSession_due P inp { w with connected := true, trace := w.trace ++ cs } hd
    refine ⟨_, cs ++ dueCalls inp.draws w.telemetry_topic
      (tickPayload P inp { w with connected := true, trace := w.trace ++ cs })
      (true && inp.linkUp && inp.sendOk), hl, ?_, ?_, ?_⟩
    · rw [hw]
      simp
    · simp [List.countP_append, h0, (count_dueCalls _ _ _ _).1, hd]
    · simp [List.countP_append, h0, (count_dueCalls _ _ _ _).1, hd]
  · have hw := afterSession_not_due P inp { w with connected := true, trace := w.trace ++ cs } hd
    refine ⟨_, cs ++ [Event.poll], hl, ?_, ?_, ?_⟩
    · rw [hw]
      simp [clientLoop]
    · simp [List.countP_append, h0, Event.isPublish, hd]
    · simp [List.countP_append, h0, Event.isPublish, hd]

/-- C2: in a tick in which telemetry is due and the session check returns, loop()
returns for either outcome of client.publish; both runs make exactly one publish
call (same topic, same payload, no retry), set lastPublish to the millis() value
of the tick and end in the same state; from that state the next tick makes a
publish call exactly when at least 5000 ms (unsigned, 32 bits) separate its
millis() value from the recorded one. -/
theorem failed_publish_keeps_schedule (P : Platform) (inp : TickInput) (w : World)
    (hs : w.connected = true ∨ true ∈ inp.connects)
    (hd : 5000 ≤ subU32 (inp.now % 2 ^ 32) w.lastPublish) :
    ∃ wOk wFail evsOk evsFail,
      loop P (inp.withSendOk true) w = some wOk ∧
      loop P (inp.withSendOk false) w = some wFail ∧
      wOk.trace = w.trace ++ evsOk ∧ wFail.trace = w.trace ++ evsFail ∧
      evsOk.countP Event.isPublish = 1 ∧ evsFail.countP Event.isPublish = 1 ∧
      (∃ payload,
        evsOk.getLast? = some (Event.publish w.telemetry_topic payload inp.linkUp) ∧
        evsFail.getLast? = some (Event.publish w.telemetry_topic payload false)) ∧
      wOk.lastPublish = inp.now % 2 ^ 32 ∧ wFail.lastPublish = inp.now % 2 ^ 32 ∧
      wOk.forgetTrace = wFail.forgetTrace ∧
      ∀ nxt : TickInput, ∀ ws, (ws = wOk ∨ ws = wFail) →
        (ws.connected = true ∨ true ∈ nxt.connects) →
        ∃ w'' evs, loop P nxt ws = some w'' ∧ w''.trace = ws.trace ++ evs ∧
          (evs.countP Event.isPublish = 1 ↔
            5000 ≤ subU32 (nxt.now % 2 ^ 32) (inp.now % 2 ^ 32)) ∧
          (evs.countP Event.isPublish = 0 ↔
            ¬ 5000 ≤ subU32 (nxt.now % 2 ^ 32) (inp.now % 2 ^ 32)) := by
  obtain ⟨cs, h0, hrun⟩ := loop_due_outcome P inp w hs hd
  have hcount : ∀ ok, (cs ++ dueCalls inp.draws w.telemetry_topic
      (tickPayload P inp { w with connected := true, trace := w.trace ++ cs })
      (inp.linkUp && ok)).countP Event.isPublish = 1 := by
    intro ok
    simp [List.countP_append, h0, (count_dueCalls _ _ _ _).1]
  refine ⟨_, _, _, _, hrun true, hrun false, rfl, rfl, hcount true, hcount false,
    ⟨tickPayload P inp { w with connected := true, trace := w.trace ++ cs }, ?_, ?_⟩,
    rfl, rfl, rfl, ?_⟩
  · simp [dueCalls, sensorCalls]
  · simp [dueCalls, sensorCalls]
  · intro nxt ws hws hcon
    have hlp : ws.lastPublish = inp.now % wordModulus := by
      rcases hws with h | h <;> rw [h]
    have := loop_attempts P nxt ws hcon
    rw [hlp] at this
    exact this

theorem failed_publish_keeps_schedule_witness :
    ∃ wOk wFail evsOk evsFail,
      loop refPlatform ((tickAt 6000).withSendOk true) readyWorld = some wOk ∧
      loop refPlatform ((tickAt 6000).withSendOk false) readyWorld = some wFail ∧
      wOk.trace = readyWorld.trace ++ evsOk ∧ wFail.trace = readyWorld.trace ++ evsFail ∧
      evsOk.countP Event.isPublish = 1 ∧ evsFail.countP Event.isPublish = 1 ∧
      (∃ payload,
        evsOk.getLast? =
          some (Event.publish readyWorld.telemetry_topic payload (tickAt 6000).linkUp) ∧
        evsFail.getLast? = some (Event.publish readyWorld.telemetry_topic payload false)) ∧
      wOk.lastPublish = (tickAt 6000).now % 2 ^ 32 ∧
      wFail.lastPublish = (tickAt 6000).now % 2 ^ 32 ∧
      wOk.forgetTrace = wFail.forgetTrace ∧
      ∀ nxt : TickInput, ∀ ws, (ws = wOk ∨ ws = wFail) →
        (ws.connected = true ∨ true ∈ nxt.connects) →
        ∃ w'' evs, loop refPlatform nxt ws = some w'' ∧ w''.trace = ws.trace ++ evs ∧
          (evs.countP Event.isPublish = 1 ↔
            5000 ≤ subU32 (nxt.now % 2 ^ 32) ((tickAt 6000).now % 2 ^ 32)) ∧
          (evs.countP Event.isPublish = 0 ↔
            ¬ 5000 ≤ subU32 (nxt.now % 2 ^ 32) ((tickAt 6000).now % 2 ^ 32)) :=
  failed_publish_keeps_schedule refPlatform (tickAt 6000) readyWorld (Or.inl rfl) (by decide)

/-! ## Three ticks after start-up -/

theorem loop_due_connected (P : Platform) (inp : TickInput) (w : World)
    (hc : w.connected = true)
    (hd : 5000 ≤ subU32 (inp.now % wordModulus) w.lastPublish) :
    loop P inp w =
      some { readSensors P inp.draws w with
        lastPublish := inp.now % wordModulus
        connected := inp.linkUp
        trace := w.trace ++ dueCalls inp.draws w.telemetry_topic (tickPayload P inp w)
          (inp.linkUp && inp.sendOk) } := by
  rw [loop_connected P inp w hc, afterSession_due P inp w hd]
  simp [hc]

/-- C3, as stated, fails: from lastPublish = 0 with the client connected throughout,
ticks reading 1500, 6500 and 11500 ms are 5000 ms apart, yet only two publish
calls are made, because the first reading is less than 5000 ms after boot. -/
theorem three_ticks_two_publishes :
    readyWorld.lastPublish = 0 ∧ readyWorld.connected = true ∧
    readyWorld.telemetry_topic = "patient/patient-002/telemetry" ∧
    (tickAt 1500).now + 5000 ≤ (tickAt 6500).now ∧
    (tickAt 6500).now + 5000 ≤ (tickAt 11500).now ∧
    (tickAt 1500).linkUp = true ∧ (tickAt 6500).linkUp = true ∧ (tickAt 11500).linkUp = true ∧
    publishesOfThreeTicks refPlatform (tickAt 1500) (tickAt 6500) (tickAt 11500) readyWorld
      = some 2 := by
  decide

/-- C3, amended: from lastPublish = 0 with the telemetry topic of device
"patient-002" and the client connected throughout, three consecutive ticks whose
millis() readings are at least 5000 ms apart, the first of them at least 5000,
all return and make exactly three publish calls, each on
"patient/patient-002/telemetry". -/
theorem three_ticks_three_publishes (P : Platform) (i1 i2 i3 : TickInput) (w : World)
    (h0 : w.lastPublish = 0) (hc : w.connected = true)
    (ht : w.telemetry_topic = "patient/patient-002/telemetry")
    (hl1 : i1.linkUp = true) (hl2 : i2.linkUp = true)
    (h1 : 5000 ≤ i1.now) (h12 : i1.now + 5000 ≤ i2.now) (h23 : i2.now + 5000 ≤ i3.now)
    (hb : i3.now < 2 ^ 32) :
    ∃ w1 w2 w3 evs, loop P i1 w = some w1 ∧ loop P i2 w1 = some w2 ∧
      loop P i3 w2 = some w3 ∧ w3.trace = w.trace ++ evs ∧
      evs.countP Event.isPublish = 3 ∧
      evs.countP (Event.isPublishTo "patient/patient-002/telemetry") = 3 := by
  have d1 : 5000 ≤ subU32 (i1.now % wordModulus) w.lastPublish := by
    rw [h0]; unfold subU32 wordModulus; omega
  have r1 := loop_due_connected P i1 w hc d1
  obtain ⟨w1, hw1⟩ : ∃ w1, w1 = { readSensors P i1.draws w with
      lastPublish := i1.now % wordModulus
      connected := i1.linkUp
      trace := w.trace ++ dueCalls i1.draws w.telemetry_topic (tickPayload P i1 w)
        (i1.linkUp && i1.sendOk) } := ⟨_, rfl⟩
  rw [← hw1] at r1
  have c1 : w1.connected = true := by rw [hw1]; exact hl1
  have t1 : w1.telemetry_topic = w.telemetry_topic := by rw [hw1]; rfl
  have d2 : 5000 ≤ subU32 (i2.now % wordModulus) w1.lastPublish := by
    have : w1.lastPublish = i1.now % wordModulus := by rw [hw1]
    rw [this]; unfold subU32 wordModulus; omega
  have r2 := loop_due_connected P i2 w1 c1 d2
  obtain ⟨w2, hw2⟩ : ∃ w2, w2 = { readSensors P i2.draws w1 with
      lastPublish := i2.now % wordModulus
      connected := i2.linkUp
      trace := w1.trace ++ dueCalls i2.draws w1.telemetry_topic (tickPayload P i2 w1)
        (i2.linkUp && i2.sendOk) } := ⟨_, rfl⟩
  rw [← hw2] at r2
  have c2 : w2.connected = true := by rw [hw2]; exact hl2
  have t2 : w2.telemetry_topic = w.telemetry_topic := by rw [hw2, ← t1]; rfl
  have d3 : 5000 ≤ subU32 (i3.now % wordModulus) w2.lastPublish := by
    have : w2.lastPublish = i2.now % wordModulus := by rw [hw2]
    rw [this]; unfold subU32 wordModulus; omega
  have r3 := loop_due_connected P i3 w2 c2 d3
  refine ⟨w1, w2, _,
    dueCalls i1.draws w.telemetry_topic (tickPayload P i1 w) (i1.linkUp && i1.sendOk) ++
      (dueCalls i2.draws w.telemetry_topic (tickPayload P i2 w1) (i2.linkUp && i2.sendOk) ++
        dueCalls i3.draws w.telemetry_topic (tickPayload P i3 w2) (i3.linkUp && i3.sendOk)),
    r1, r2, r3, ?_, ?_, ?_⟩
  · have e2 : w2.trace = w1.trace ++ dueCalls i2.draws w1.telemetry_topic
        (tickPayload P i2 w1) (i2.linkUp && i2.sendOk) := by rw [hw2]
    have e1 : w1.trace = w.trace ++ dueCalls i1.draws w.telemetry_topic
        (tickPayload P i1 w) (i1.linkUp && i1.sendOk) := by rw [hw1]
    show w2.trace ++ _ = _
    rw [e2, e1, t1, t2]
    simp [List.append_assoc]
  · simp [List.countP_append, (count_dueCalls _ _ _ _).1]
  · rw [← ht]
    simp [List.countP_append, (count_dueCalls _ _ _ _).2]

theorem three_ticks_three_publishes_witness :
    ∃ w1 w2 w3 evs, loop refPlatform (tickAt 5000) readyWorld = some w1 ∧
      loop refPlatform (tickAt 10000) w1 = some w2 ∧
      loop refPlatform (tickAt 15000) w2 = some w3 ∧ w3.trace = readyWorld.trace ++ evs ∧
      evs.countP Event.isPublish = 3 ∧
      evs.countP (Event.isPublishTo "patient/patient-002/telemetry") = 3 :=
  three_ticks_three_publishes refPlatform (tickAt 5000) (tickAt 10000) (tickAt 15000)
    readyWorld rfl rfl (by decide) rfl rfl (by decide) (by decide) (by decide) (by decide)

/-! ## Message documents -/

theorem castInt_eq_truncTowardZero (x : ℚ) : castInt x = truncTowardZero x := by
  unfold castInt truncTowardZero
  have hden : (0 : Int) ≤ (x.den : Int) := Int.ofNat_nonneg _
  by_cases hx : 0 ≤ x
  · rw [if_pos hx, Int.tdiv_eq_ediv (Rat.num_nonneg.2 hx) hden, Rat.floor_def]
  · rw [if_neg hx]
    have hneg : 0 ≤ -x := by linarith [not_le.1 hx]
    have h1 : Int.tdiv x.num (x.den : Int) = -((-x.num) / (x.den : Int)) := by
      have h2 := Int.tdiv_eq_ediv (a := -x.num) (b := (x.den : Int))
        (by have := Rat.num_nonneg.2 hneg; simpa using this) hden
      rw [← h2, Int.neg_tdiv, neg_neg]
    have h3 : ⌈x⌉ = -⌊-x⌋ := by rw [Int.floor_neg, neg_neg]
    rw [h1, h3, Rat.floor_def]
    simp

theorem truncTowardZero_fits (x : ℚ) (h : castDefined x) :
    -(2 : Int) ^ 31 ≤ truncTowardZero x ∧ truncTowardZero x < (2 : Int) ^ 31 := by
  obtain ⟨hlo, hhi⟩ := h
  unfold truncTowardZero
  by_cases hx : 0 ≤ x
  · rw [if_pos hx]
    constructor
    · have : (0 : Int) ≤ ⌊x⌋ := Int.floor_nonneg.2 hx
      linarith
    · rw [Int.floor_lt]
      exact_mod_cast hhi
  · rw [if_neg hx]
    constructor
    · have : (-(2 : Int) ^ 31 - 1) < ⌈x⌉ := by
        rw [Int.lt_ceil]
        exact_mod_cast hlo
      linarith
    · have : ⌈x⌉ ≤ (0 : Int) := by
        rw [Int.ceil_le]
        exact_mod_cast le_of_lt (not_le.1 hx)
      linarith

theorem castDefined_boot : castDefined boot.currentBPM := by
  norm_num [castDefined, boot]

/-- Every heart rate stored by `readSensors()` is in the domain of the conversion
to `int`, on a platform whose roundings are exact on integers. -/
theorem castDefined_readSensors (P : Platform) (d : SensorDraws) (w : World)
    (hP : ∀ n : Int, P.f32 (P.f64 (n : ℚ)) = n) (hd : -10 ≤ d.bpm ∧ d.bpm < 10) :
    castDefined (readSensors P d w).currentBPM := by
  have h : (readSensors P d w).currentBPM = ((70 + d.bpm : Int) : ℚ) := by
    have := hP (70 + d.bpm)
    push_cast at this
    simpa [readSensors] using this
  rw [h]
  obtain ⟨h1, h2⟩ := hd
  have h3 : ((-10 : Int) : ℚ) ≤ (d.bpm : ℚ) := by exact_mod_cast h1
  have h4 : (d.bpm : ℚ) < ((10 : Int) : ℚ) := by exact_mod_cast h2
  constructor <;> push_cast at * <;> norm_num <;> linarith

theorem telemetryDoc_eq (w : World) (stamp : Nat) :
    telemetryDoc w stamp =
      [("deviceId", .str device_id), ("bpm", .int (castInt w.currentBPM)),
        ("temp", .float w.currentTemp), ("gps", .str w.currentGPS),
        ("timestamp", .uint (stamp % wordModulus))] := by
  simp [telemetryDoc, JsonDocument.set]

theorem alertDoc_eq (w : World) (stamp : Nat) :
    alertDoc w stamp =
      [("deviceId", .str device_id), ("type", .str "manual"),
        ("message", .str "Emergency button pressed!"),
        ("bpm", .int (castInt w.currentBPM)),
        ("temp", .float w.currentTemp), ("gps", .str w.currentGPS),
        ("timestamp", .uint (stamp % wordModulus))] := by
  simp [alertDoc, JsonDocument.set]

/-- C8: the document publishTelemetry serializes has exactly the keys deviceId, bpm,
temp, gps, timestamp; deviceId is device_id, bpm is the heart rate truncated
toward zero (an int, for every heart rate on which the conversion to int is
defined), temp and gps are the current temperature and position string
unchanged, and timestamp is the millis() value read while encoding. -/
theorem telemetryDoc_fields (P : Platform) (w : World) (stamp : Nat) (sendOk : Bool)
    (hb : castDefined w.currentBPM) :
    (publishTelemetry P stamp sendOk w).trace =
      w.trace ++ [Event.publish w.telemetry_topic
        (serializeJson P (telemetryDoc w stamp) 256) (clientPublishResult sendOk w)] ∧
    (telemetryDoc w stamp).keys = ["deviceId", "bpm", "temp", "gps", "timestamp"] ∧
    (telemetryDoc w stamp).get "deviceId" = some (.str device_id) ∧
    (telemetryDoc w stamp).get "bpm" = some (.int (truncTowardZero w.currentBPM)) ∧
    -(2 : Int) ^ 31 ≤ truncTowardZero w.currentBPM ∧
    truncTowardZero w.currentBPM < (2 : Int) ^ 31 ∧
    (telemetryDoc w stamp).get "temp" = some (.float w.currentTemp) ∧
    (telemetryDoc w stamp).get "gps" = some (.str w.currentGPS) ∧
    (telemetryDoc w stamp).get "timestamp" = some (.uint (stamp % 2 ^ 32)) := by
  have hfit := truncTowardZero_fits _ hb
  refine ⟨rfl, ?_⟩
  rw [telemetryDoc_eq, castInt_eq_truncTowardZero]
  refine ⟨rfl, ?_, ?_, hfit.1, hfit.2, ?_, ?_, ?_⟩ <;>
    simp [JsonDocument.get, wordModulus]

theorem telemetryDoc_fields_witness :
    castDefined readyWorld.currentBPM ∧
    (telemetryDoc readyWorld 6001).get "bpm" =
      some (.int (truncTowardZero readyWorld.currentBPM)) ∧
    (telemetryDoc readyWorld 6001).get "timestamp" = some (.uint (6001 % 2 ^ 32)) :=
  have h : castDefined readyWorld.currentBPM := by
    norm_num [castDefined, readyWorld, boot]
  ⟨h, (telemetryDoc_fields refPlatform readyWorld 6001 true h).2.2.2.1,
    (telemetryDoc_fields refPlatform readyWorld 6001 true h).2.2.2.2.2.2.2.2⟩

/-- C9: restricted to the five telemetry keys, the document publishAlert serializes
is the document publishTelemetry builds from the same state and clock value; its
only other keys are type, with value "manual", and message, with value
"Emergency button pressed!". -/
theorem alertDoc_extends_telemetryDoc (P : Platform) (w : World) (a : AlertInput) :
    (publishAlert P a w).trace =
      w.trace ++ [Event.publish w.alert_topic
        (serializeJson P (alertDoc w a.stamp) 256) (clientPublishResult a.sendOk w)] ∧
    (alertDoc w a.stamp).restrict telemetryKeys = telemetryDoc w a.stamp ∧
    (alertDoc w a.stamp).keys.filter (fun k => decide (k ∉ telemetryKeys)) =
      ["type", "message"] ∧
    (alertDoc w a.stamp).keys.length = 7 ∧
    (alertDoc w a.stamp).get "type" = some (.str "manual") ∧
    (alertDoc w a.stamp).get "message" = some (.str "Emergency button pressed!") := by
  refine ⟨rfl, ?_⟩
  rw [alertDoc_eq, telemetryDoc_eq]
  refine ⟨?_, ?_, rfl, ?_, ?_⟩ <;>
    simp [JsonDocument.get, JsonDocument.restrict, JsonDocument.keys, telemetryKeys]

/-! ## The alert path -/

theorem onEmergencyButton_eq (P : Platform) (a : AlertInput) (w : World) :
    onEmergencyButton P a w = { w with trace := w.trace ++ [alertCall P w a] } :=
  rfl

theorem alertTriggers_eq (P : Platform) (inputs : List AlertInput) (w : World) :
    alertTriggers P inputs w = { w with trace := w.trace ++ inputs.map (alertCall P w) } := by
  induction inputs generalizing w with
  | nil => simp [alertTriggers]
  | cons a rest ih =>
    rw [alertTriggers, ih, onEmergencyButton_eq]
    simp [alertCall, alertDoc, clientPublishResult]

theorem count_alertCalls (P : Platform) (inputs : List AlertInput) (w : World) :
    (inputs.map (alertCall P w)).countP (Event.isPublishTo w.alert_topic) = inputs.length ∧
    (inputs.map (alertCall P w)).countP Event.isPublish = inputs.length := by
  induction inputs with
  | nil => simp
  | cons a rest ih =>
    simp only [List.map_cons, List.length_cons]
    rw [List.countP_cons_of_pos, List.countP_cons_of_pos, ih.1, ih.2]
    · exact ⟨rfl, rfl⟩
    · rfl
    · simp [alertCall, Event.isPublishTo]

/-- C4: from any state in which the alert topic is as setup() leaves it, n successive
invocations of onEmergencyButton make exactly n publish calls, one per
invocation and in order, all on "patient/" ++ device_id ++ "/alert"; the calls
are the same whatever the value of lastPublish, and lastPublish is unchanged. -/
theorem alerts_not_coalesced (P : Platform) (inputs : List AlertInput) (w : World)
    (ha : w.alert_topic = "patient/" ++ device_id ++ "/alert") :
    ∃ evs, (alertTriggers P inputs w).trace = w.trace ++ evs ∧
      evs = inputs.map (fun a => Event.publish ("patient/" ++ device_id ++ "/alert")
        (serializeJson P (alertDoc w a.stamp) 256) (clientPublishResult a.sendOk w)) ∧
      evs.length = inputs.length ∧
      evs.countP (Event.isPublishTo ("patient/" ++ device_id ++ "/alert")) = inputs.length ∧
      evs.countP Event.isPublish = inputs.length ∧
      (alertTriggers P inputs w).lastPublish = w.lastPublish ∧
      ∀ t, (alertTriggers P inputs { w with lastPublish := t }).trace =
        (alertTriggers P inputs w).trace := by
  refine ⟨inputs.map (alertCall P w), ?_, ?_, by simp, ?_, (count_alertCalls P inputs w).2,
    ?_, ?_⟩
  · rw [alertTriggers_eq]
  · rw [← ha]
    rfl
  · rw [← ha]
    exact (count_alertCalls P inputs w).1
  · rw [alertTriggers_eq]
  · intro t
    rw [alertTriggers_eq, alertTriggers_eq]
    rfl

theorem alerts_not_coalesced_witness :
    ∃ evs, (alertTriggers refPlatform [⟨7000, true⟩, ⟨7000, true⟩] readyWorld).trace =
        readyWorld.trace ++ evs ∧
      evs = [(⟨7000, true⟩ : AlertInput), ⟨7000, true⟩].map
        (fun a => Event.publish ("patient/" ++ device_id ++ "/alert")
          (serializeJson refPlatform (alertDoc readyWorld a.stamp) 256)
          (clientPublishResult a.sendOk readyWorld)) ∧
      evs.length = [(⟨7000, true⟩ : AlertInput), ⟨7000, true⟩].length ∧
      evs.countP (Event.isPublishTo ("patient/" ++ device_id ++ "/alert")) =
        [(⟨7000, true⟩ : AlertInput), ⟨7000, true⟩].length ∧
      evs.countP Event.isPublish = [(⟨7000, true⟩ : AlertInput), ⟨7000, true⟩].length ∧
      (alertTriggers refPlatform [⟨7000, true⟩, ⟨7000, true⟩] readyWorld).lastPublish =
        readyWorld.lastPublish ∧
      ∀ t, (alertTriggers refPlatform [⟨7000, true⟩, ⟨7000, true⟩]
          { readyWorld with lastPublish := t }).trace =
        (alertTriggers refPlatform [⟨7000, true⟩, ⟨7000, true⟩] readyWorld).trace :=
  alerts_not_coalesced refPlatform [⟨7000, true⟩, ⟨7000, true⟩] readyWorld (by decide)

/-- C7, as stated, fails: in the state that follows start-up, before any sensor
read, handling an alert makes a single publish call and no call to the
reading source; the message carries the initial values of the readings. -/
theorem alert_without_sensor_read :
    (onEmergencyButton refPlatform ⟨7000, true⟩ readyWorld).trace =
      [Event.publish "patient/patient-002/alert"
        (serializeJson refPlatform (alertDoc readyWorld 7000) 256) true] ∧
    (onEmergencyButton refPlatform ⟨7000, true⟩ readyWorld).trace.countP Event.isRandom = 0 ∧
    alertDoc readyWorld 7000 =
      [("deviceId", .str "patient-002"), ("type", .str "manual"),
        ("message", .str "Emergency button pressed!"), ("bpm", .int 75),
        ("temp", .float boot.currentTemp), ("gps", .str "14.5995,120.9842"),
        ("timestamp", .uint 7000)] :=
  ⟨by decide, by decide, rfl⟩

/-- C7, amended: handling an alert makes no call to the reading source and leaves
the stored readings unchanged; the bpm, temp and gps members of the alert
document are built from the readings stored before the trigger, that is, those
left by the last readSensors run or the initial ones. -/
theorem alert_uses_stored_readings (P : Platform) (a : AlertInput) (w : World) :
    (onEmergencyButton P a w).trace =
      w.trace ++ [Event.publish w.alert_topic (serializeJson P (alertDoc w a.stamp) 256)
        (clientPublishResult a.sendOk w)] ∧
    [Event.publish w.alert_topic (serializeJson P (alertDoc w a.stamp) 256)
        (clientPublishResult a.sendOk w)].countP Event.isRandom = 0 ∧
    (onEmergencyButton P a w).currentBPM = w.currentBPM ∧
    (onEmergencyButton P a w).currentTemp = w.currentTemp ∧
    (onEmergencyButton P a w).currentGPS = w.currentGPS ∧
    (alertDoc w a.stamp).get "bpm" = some (.int (castInt w.currentBPM)) ∧
    (alertDoc w a.stamp).get "temp" = some (.float w.currentTemp) ∧
    (alertDoc w a.stamp).get "gps" = some (.str w.currentGPS) ∧
    ∀ d w0, w = readSensors P d w0 →
      (alertDoc w a.stamp).get "bpm" =
        some (.int (castInt (P.f32 (P.f64 (70 + (d.bpm : ℚ)))))) := by
  refine ⟨rfl, rfl, rfl, rfl, rfl, ?_, ?_, ?_, ?_⟩
  · simp [alertDoc_eq, JsonDocument.get]
  · simp [alertDoc_eq, JsonDocument.get]
  · simp [alertDoc_eq, JsonDocument.get]
  · intro d w0 h
    subst h
    simp [alertDoc_eq, JsonDocument.get, readSensors]

/-! ## Oversized documents -/

set_option maxRecDepth 100000

theorem awaitWiFi_keeps (statuses : List Bool) (w w' : World)
    (h : awaitWiFi statuses w = some w') :
    w'.telemetry_topic = w.telemetry_topic ∧ w'.alert_topic = w.alert_topic ∧
    w'.lastPublish = w.lastPublish ∧ w'.connected = w.connected := by
  induction statuses generalizing w with
  | nil => simp [awaitWiFi] at h
  | cons ok rest ih =>
    cases ok
    · simp only [awaitWiFi] at h
      exact ih (w.emit (Event.delay 500)) h
    · simp only [awaitWiFi, Option.some.injEq] at h
      subst h
      exact ⟨rfl, rfl, rfl, rfl⟩

/-- What `setup()` leaves behind when it returns: the two topics of the device, and
the schedule and session state untouched. -/
theorem setup_topics (statuses : List Bool) (w w' : World)
    (h : setup statuses w = some w') :
    w'.telemetry_topic = "patient/" ++ device_id ++ "/telemetry" ∧
    w'.alert_topic = "patient/" ++ device_id ++ "/alert" ∧
    w'.lastPublish = w.lastPublish ∧ w'.connected = w.connected := by
  simp only [setup, setupWiFi, Option.map_eq_some'] at h
  obtain ⟨w3, h3, rfl⟩ := h
  obtain ⟨h1, h2, h4, h5⟩ := awaitWiFi_keeps _ _ _ h3
  refine ⟨?_, ?_, ?_, ?_⟩
  · rw [← topicFor_telemetry]; exact h1
  · rw [← topicFor_alert]; exact h2
  · exact h4
  · exact h5

theorem setup_example :
    (setup [false, true] boot).map (fun w => (w.telemetry_topic, w.alert_topic, w.lastPublish))
      = some ("patient/patient-002/telemetry", "patient/patient-002/alert", 0) := by
  decide

end Blocate
